import Mathlib

/-!
# Verification of the mandalorian-art-grabber pipeline (`src/main.go`)

A shallow embedding of the three-stage scraping pipeline:
URL generation (`generateGalleryURLs`), page fetch/parse
(`downloadGalleryHTML` + `parseForPic`), and the download stage
(`downloadPic` invoked from `main`), together with the
cancellation-aware HTTP helper (`httpDo`).

Go strings are modelled as `List Char` (the captions/IDs/URLs involved
are ASCII, where Go's byte-wise `len`/slicing coincides with the
character count). Go's `error` values are modelled as `Option GoErr`
with `none` standing for a `nil` error. External collaborators
(HTTP client, HTML parser, regex, JSON decoding) are modelled by their
outcome, which is an input of the embedded stage functions; everything
the repository's own code does with those outcomes is embedded
faithfully from `src/main.go`.
-/

namespace MandoGrabber

/-- Go strings, modelled as character lists (`len`/slicing are positional). -/
abbrev GoStr := List Char

/-- Constants from `main.go` lines 22-26. -/
def startChapter : Int := 1

/-- The `endChapter` constant, `main.go` line 24. -/
def endChapter : Int := 16

/-- The `worker` constant, `main.go` line 25: size of the download pool. -/
def worker : Nat := 5

/-- The `Picture` value type (`main.go` lines 28-32). -/
structure Picture where
  URL : GoStr
  Caption : GoStr
  ID : GoStr
deriving DecidableEq, Repr

/-! ## URL source (`generateGalleryURLs`, `main.go` lines 52-75) -/

/-- The chapter list built by the loop in `main` (`main.go` lines 35-38):
`for i := startChapter; i <= endChapter; i++ { chapters = append(chapters, i) }`,
generalised over the inclusive bounds `s`, `e`. -/
def chapterList (s e : Int) : List Int :=
  (List.range (e - s + 1).toNat).map (fun k : Nat => s + (k : Int))

/-- First URL template applied to a chapter
(`urlConcept`, `main.go` line 54, via `fmt.Sprintf` with `%d`). -/
def urlConcept (chap : Int) : GoStr :=
  ("https://www.starwars.com/series/the-mandalorian/chapter-").data
    ++ (toString chap).data ++ ("-concept-art-gallery").data

/-- Second URL template applied to a chapter
(`urlConcept2`, `main.go` line 55). -/
def urlConcept2 (chap : Int) : GoStr :=
  ("https://www.starwars.com/chapter-").data
    ++ (toString chap).data ++ ("-concept-art-gallery").data

/-- The sequence of URLs pushed into the `urls` channel by the producer
goroutine of `generateGalleryURLs` (`main.go` lines 61-73) on a run in
which cancellation never fires: for each chapter, in list order, the
non-blocking `select` takes the `default` branch and the two sends
`urls <- fmt.Sprintf(urlConcept, chap)`, `urls <- fmt.Sprintf(urlConcept2, chap)`
execute in program order; after the last chapter the deferred
`close(urls)` closes the stream. -/
def generateGalleryURLs : List Int → List GoStr
  | [] => []
  | chap :: rest => urlConcept chap :: urlConcept2 chap :: generateGalleryURLs rest

/-! ## Download-stage filename logic (`downloadPic`, `main.go` lines 188-192) -/

/-- Caption sanitisation in `downloadPic` (`main.go` lines 189-191):
`if len(p.Caption) > 64 { p.Caption = p.Caption[:64+1] }`.
Note the slice bound is `64+1`, so a long caption keeps its first 65
characters, not 64. -/
def truncCaption (c : GoStr) : GoStr :=
  if c.length > 64 then c.take (64 + 1) else c

/-- The path separator `os.PathSeparator` on the target platform. -/
def pathSeparator : Char := '/'

/-- The destination filename composed in `downloadPic` (`main.go` line 192):
`fmt.Sprintf("download%c%s_%s.jpeg", os.PathSeparator, p.Caption, p.ID)`
after the caption truncation has been applied to `p.Caption`. -/
def downloadFileName (p : Picture) : GoStr :=
  ("download").data ++ [pathSeparator]
    ++ truncCaption p.Caption ++ ['_'] ++ p.ID ++ (".jpeg").data

/-! ## Page parser (`parseForPic`, `main.go` lines 120-172) -/

/-- One image record inside the decoded `Grill.burger` JSON payload
(the anonymous struct in `main.go` lines 145-149). -/
structure Image where
  image : GoStr
  caption : GoStr
  id : GoStr
deriving DecidableEq, Repr

/-- One entry of a stack item's `data` list (`main.go` lines 144-150). -/
structure DataItem where
  data_images : List Image
deriving DecidableEq, Repr

/-- One entry of the payload's `stack` list (`main.go` lines 143-151). -/
structure StackItem where
  stack_data : List DataItem
deriving DecidableEq, Repr

/-- The decoded payload shape targeted by `mapstructure.Decode`
(`main.go` lines 142-152). -/
structure GrillData where
  stack : List StackItem
deriving DecidableEq, Repr

/-- Classification of an HTML document by the outcomes of the external
collaborator calls made in `parseForPic` (`main.go` lines 120-156):
the xpath queries (`picDataXpath`, `notFoundXpath`), the regex
`picDataPattern`, `json.Unmarshal` and `mapstructure.Decode`. Each
constructor names exactly one branch of the source.
* `errorPage`: no usable script node, but the `error_page` article is
  present (lines 123-127).
* `missingNode`: no usable script node and no `error_page` article
  (line 128).
* `noRegexMatch`: script node found but `picDataPattern` yields fewer
  than two captures (lines 131-134).
* `badJSON`: regex matched but `json.Unmarshal` fails (lines 136-140).
* `badDecode`: JSON decoded but `mapstructure.Decode` fails
  (lines 153-156).
* `decoded d`: all collaborator steps succeed, producing payload `d`;
  the function proceeds to the navigation loop (lines 158-171). -/
inductive Doc
  | errorPage
  | missingNode
  | noRegexMatch
  | badJSON
  | badDecode
  | decoded (d : GrillData)
deriving DecidableEq, Repr

/-- Go `error` values produced by the repository's own code paths,
modelled as an enumeration; a Go `nil` error is `Option.none`. -/
inductive GoErr
  | cannotFindHtmlNode
  | unableToFindRegexMatch
  | jsonUnmarshalError
  | mapstructureDecodeError
  | requestCreationError
  | networkError
  | htmlParseError
  | contextCanceled
deriving DecidableEq, Repr

/-- The parser `parseForPic` (`main.go` lines 120-172). The early branches return
the corresponding error (or the distinguished not-found success
`(nil, nil)` for an `error_page` document). For a fully decoded
payload the function runs
`for _, p := range data.Stack[2].Data[0].Images` under a deferred
`recover`. Go's indexing panics when `stack` has fewer than 3 entries
or `stack[2].data` is empty; the deferred function recovers the panic
and assigns the wrapped error to the local variable `err` — but the
function's result parameters are *unnamed* (`([]Picture, error)`),
so that assignment cannot reach the caller and the function returns
the zero values `(nil, nil)`. The `.get?`/`none` branches below embed
exactly that recovered-panic path. -/
def parseForPic : Doc → List Picture × Option GoErr
  | .errorPage => ([], none)
  | .missingNode => ([], some .cannotFindHtmlNode)
  | .noRegexMatch => ([], some .unableToFindRegexMatch)
  | .badJSON => ([], some .jsonUnmarshalError)
  | .badDecode => ([], some .mapstructureDecodeError)
  | .decoded d =>
    match d.stack.get? 2 with
    | none => ([], none)
    | some s2 =>
      match s2.stack_data.get? 0 with
      | none => ([], none)
      | some d0 =>
        (d0.data_images.map (fun p => { URL := p.image, Caption := p.caption, ID := p.id }),
         none)

/-! ## Fetch stage (`downloadGalleryHTML`, `main.go` lines 77-112) -/

/-- Per-URL outcome of the external collaborator calls made by the
fetch stage before the repository's own error handling takes over:
* `reqError`: `http.NewRequest` fails (`main.go` lines 82-86);
* `netError`: the round trip inside `httpDo` hands a non-nil error to
  the closure (lines 87-90);
* `htmlParseFailure`: `html.Parse` on the body fails (lines 92-95);
* `fetched doc`: the body parses to a document classified as `doc`,
  which is handed to `parseForPic` (line 96). -/
inductive FetchOutcome
  | reqError
  | netError
  | htmlParseFailure
  | fetched (doc : Doc)
deriving DecidableEq, Repr

/-- Pictures pushed into `picChan` and error lines logged for a single
URL by the loop body of `downloadGalleryHTML` (`main.go` lines 81-108):
a request-creation failure logs one line and emits nothing; a network
or HTML-parse failure makes the closure return an error, which the
caller logs as one line, emitting nothing; a `parseForPic` error
likewise; on a nil parse error every returned picture is sent, in
order, and nothing is logged. -/
def processURL : FetchOutcome → List Picture × Nat
  | .reqError => ([], 1)
  | .netError => ([], 1)
  | .htmlParseFailure => ([], 1)
  | .fetched doc =>
    match parseForPic doc with
    | (_, some _) => ([], 1)
    | (pics, none) => (pics, 0)

/-- The fetch stage over the whole URL stream (`main.go` lines 79-110):
`for url := range urls` processes the URLs one at a time in order;
the state pair collects the pictures sent to `picChan` (in emission
order) and the number of error lines logged. -/
def downloadGalleryHTML : List FetchOutcome → List Picture × Nat
  | [] => ([], 0)
  | o :: rest =>
    ((processURL o).1 ++ (downloadGalleryHTML rest).1,
     (processURL o).2 + (downloadGalleryHTML rest).2)

/-! ## The URL producer goroutine as a transition system
(`generateGalleryURLs`, `main.go` lines 61-73)

To settle the cancellation claims we model the producer goroutine as a
small-step machine together with the `urls` channel buffer
(capacity 3, `main.go` line 60) and the cancellation token. Consumer
steps are deliberately absent: the scenario of interest is a buffer no
consumer is draining. -/

/-- Program counter of the producer goroutine:
* `loopHead cs` — at the top of the `for _, chap := range chapters`
  loop with `cs` the chapters not yet processed (the non-blocking
  `select` on `ctx.Done()` happens here, `main.go` lines 64-68);
* `send1 c rest` — about to execute `urls <- fmt.Sprintf(urlConcept, c)`
  (line 70);
* `send2 c rest` — about to execute `urls <- fmt.Sprintf(urlConcept2, c)`
  (line 71);
* `closed` — the goroutine has returned and the deferred `close(urls)`
  (line 62) has run. -/
inductive GenPc
  | loopHead (cs : List Int)
  | send1 (c : Int) (rest : List Int)
  | send2 (c : Int) (rest : List Int)
  | closed
deriving DecidableEq, Repr

/-- State of the producer goroutine together with the `urls` channel
buffer and the cancellation token. -/
structure GenState where
  pc : GenPc
  buf : List GoStr
  cancelled : Bool
deriving DecidableEq, Repr

/-- Capacity of the `urls` channel (`make(chan string, 3)`,
`main.go` line 60). -/
def urlsChanCap : Nat := 3

/-- Initial state of the producer goroutine for a chapter list. -/
def genInit (cs : List Int) : GenState :=
  { pc := .loopHead cs, buf := [], cancelled := false }

/-- All successor states of a producer state. The environment may fire
the cancellation token at any time (first branch). The goroutine's own
step follows `main.go` lines 63-72: at the loop head the `select` takes
the `<-ctx.Done()` case when the token has fired (returning, which runs
the deferred close) and the `default` case otherwise; a send
`urls <- ...` is enabled only when the buffer is below capacity — a
plain channel send does not watch `ctx.Done()`, so a send facing a full
buffer has no successor of its own. After the last chapter the
goroutine returns and closes the channel. -/
def genSuccessors (s : GenState) : List GenState :=
  (if s.cancelled = false then [{ s with cancelled := true }] else [])
  ++
  match s.pc with
  | .loopHead [] => [{ s with pc := .closed }]
  | .loopHead (c :: rest) =>
      if s.cancelled then [{ s with pc := .closed }]
      else [{ s with pc := .send1 c rest }]
  | .send1 c rest =>
      if s.buf.length < urlsChanCap then
        [{ s with pc := .send2 c rest, buf := s.buf ++ [urlConcept c] }]
      else []
  | .send2 c rest =>
      if s.buf.length < urlsChanCap then
        [{ s with pc := .loopHead rest, buf := s.buf ++ [urlConcept2 c] }]
      else []
  | .closed => []

/-- One step of the producer system (reducible so that concrete steps
are decidable). -/
abbrev GenStep (s t : GenState) : Prop := t ∈ genSuccessors s

/-- Reachability in the producer system. -/
def GenReach : GenState → GenState → Prop := Relation.ReflTransGen GenStep

/-- A concrete producer configuration reachable from a run over
chapters `[1, 2]` with no consumer draining: the goroutine sits at the
second send for chapter 2, the `urls` buffer is full, and the
cancellation token has fired. -/
def genStuckState : GenState :=
  { pc := .send2 2 [],
    buf := [urlConcept 1, urlConcept2 1, urlConcept 2],
    cancelled := true }

/-! ## The cancellation-aware HTTP helper as a transition system
(`httpDo`, `main.go` lines 226-239) -/

/-- Program counter of the goroutine that called `httpDo`:
* `atSelect` — blocked at the `select` (`main.go` lines 232-238);
* `draining` — took the `<-ctx.Done()` case and is executing the
  drain `<-c` (line 234);
* `returned` — `httpDo` has returned. -/
inductive HPc
  | atSelect
  | draining
  | returned
deriving DecidableEq, Repr

/-- State of one `httpDo` call, parametrised outside by the closure's
result `fres`: `fDone` records whether the background goroutine
(`go func() { c <- f(http.DefaultClient.Do(req)) }()`, lines 229-231)
has finished — since the channel `c` has capacity 1 (line 227) and
receives exactly one send, that send never blocks, so the goroutine is
finished exactly when its value has been deposited; `chanC` is the
buffer of `c`; `viaCancel` records which `select` case the caller
committed to; `ret` is the value `httpDo` returned, if it has. -/
structure HttpDoState where
  fDone : Bool
  chanC : Option (Option GoErr)
  cancelled : Bool
  pc : HPc
  viaCancel : Bool
  ret : Option (Option GoErr)
deriving DecidableEq, Repr

/-- Initial state of an `httpDo` call. -/
def httpDoInit : HttpDoState :=
  { fDone := false, chanC := none, cancelled := false,
    pc := .atSelect, viaCancel := false, ret := none }

/-- Interleaved small-step semantics of one `httpDo` call with closure
result `fres` (a Go error value, `none` = `nil`):
* `bgSend` — the background goroutine finishes the round trip and the
  handler closure, depositing the result in the capacity-1 channel
  (never blocks);
* `cancelFires` — the environment fires the cancellation token;
* `selectRecv` — the `select` takes `err := <-c` and `httpDo` returns
  `err` (line 236-237);
* `selectDone` — the token has fired and the `select` takes the
  `<-ctx.Done()` case (line 233);
* `drainRecv` — the drain `<-c` completes (possible only once the
  background goroutine has deposited its value) and `httpDo` returns
  `ctx.Err()`, which is non-nil `context.Canceled` after cancellation
  (lines 234-235). -/
inductive HttpDoStep (fres : Option GoErr) : HttpDoState → HttpDoState → Prop
  | bgSend (s : HttpDoState) : s.fDone = false →
      HttpDoStep fres s { s with fDone := true, chanC := some fres }
  | cancelFires (s : HttpDoState) : s.cancelled = false →
      HttpDoStep fres s { s with cancelled := true }
  | selectRecv (s : HttpDoState) (e : Option GoErr) :
      s.pc = .atSelect → s.chanC = some e →
      HttpDoStep fres s { s with chanC := none, pc := .returned, ret := some e }
  | selectDone (s : HttpDoState) : s.pc = .atSelect → s.cancelled = true →
      HttpDoStep fres s { s with pc := .draining, viaCancel := true }
  | drainRecv (s : HttpDoState) (e : Option GoErr) :
      s.pc = .draining → s.chanC = some e →
      HttpDoStep fres s
        { s with chanC := none, pc := .returned,
                 ret := some (some GoErr.contextCanceled) }

/-- Reachability of one `httpDo` call from its initial state. -/
def HttpDoReach (fres : Option GoErr) : HttpDoState → Prop :=
  Relation.ReflTransGen (HttpDoStep fres) httpDoInit

/-- Inductive invariant of the `httpDo` machine. -/
def HttpDoInv (fres : Option GoErr) (s : HttpDoState) : Prop :=
  (∀ e, s.chanC = some e → e = fres ∧ s.fDone = true)
  ∧ (s.pc = .atSelect → s.viaCancel = false ∧ s.ret = none)
  ∧ (s.pc = .draining →
      s.cancelled = true ∧ s.viaCancel = true ∧ s.ret = none)
  ∧ (s.pc = .returned →
      s.fDone = true
      ∧ (s.viaCancel = true →
          s.ret = some (some GoErr.contextCanceled) ∧ s.cancelled = true)
      ∧ (s.viaCancel = false → s.ret = some fres))

/-! ## The download stage as invoked by `main` (`main.go` lines 44-49) -/

/-- Effect of one call to `downloadPic` running to completion as the
only active consumer of the picture stream: the loop
`for p := range pics` (`main.go` line 182) receives pictures until the
channel is closed and drained, so the call consumes every remaining
picture and leaves the stream exhausted. Returns the pictures this
call processed and the stream contents it leaves behind. -/
def downloadPicDrain (remaining : List Picture) : List Picture × List Picture :=
  (remaining, [])

/-- The download stage as `main` actually runs it (`main.go` lines
46-48): the loop body is `downloadPic(ctx, &wg, pics)` — with no `go`
keyword — so the `worker` calls run one after another on the main
goroutine, each starting only when the previous call has returned.
Returns, per call, the list of pictures that call processed. -/
def runDownloadCalls : Nat → List Picture → List (List Picture)
  | 0, _ => []
  | n + 1, remaining =>
      (downloadPicDrain remaining).1
        :: runDownloadCalls n (downloadPicDrain remaining).2

/-! ## Helper lemmas -/

/-- The producer's emission sequence is, chapter-majorly, the two
templates per chapter. -/
theorem generateGalleryURLs_eq_bind (cs : List Int) :
    generateGalleryURLs cs = cs.flatMap (fun c => [urlConcept c, urlConcept2 c]) := by
  induction cs with
  | nil => rfl
  | cons c rest ih => simp [generateGalleryURLs, ih]

/-- The producer emits two URLs per chapter. -/
theorem generateGalleryURLs_length (cs : List Int) :
    (generateGalleryURLs cs).length = 2 * cs.length := by
  induction cs with
  | nil => rfl
  | cons c rest ih => simp [generateGalleryURLs, ih]; omega

/-- Length of the chapter list built by `main`. -/
theorem chapterList_length (s e : Int) :
    (chapterList s e).length = (e - s + 1).toNat := by
  simp [chapterList]

/-- The fetch stage processes a concatenation of URL streams by
concatenating the emitted pictures and adding the logged error
counts. -/
theorem downloadGalleryHTML_append (xs ys : List FetchOutcome) :
    downloadGalleryHTML (xs ++ ys)
      = ((downloadGalleryHTML xs).1 ++ (downloadGalleryHTML ys).1,
         (downloadGalleryHTML xs).2 + (downloadGalleryHTML ys).2) := by
  induction xs with
  | nil => simp [downloadGalleryHTML]
  | cons o rest ih => simp [downloadGalleryHTML, ih]; omega

/-! ## Claim theorems -/

/-- C5: for every inclusive chapter range `[s, e]` with `s ≤ e`, the
URL Source emits exactly `2 × (e − s + 1)` URLs, in chapter-major
order (chapters strictly increasing) with the template order preserved
within each chapter — first `urlConcept`, then `urlConcept2` — and
then closes the stream (the emission list is the complete output of
the goroutine, after which the deferred `close` runs). -/
theorem generateGalleryURLs_spec (s e : Int) (h : s ≤ e) :
    generateGalleryURLs (chapterList s e)
        = (chapterList s e).flatMap (fun c => [urlConcept c, urlConcept2 c])
      ∧ ((generateGalleryURLs (chapterList s e)).length : Int) = 2 * (e - s + 1)
      ∧ List.Pairwise (· < ·) (chapterList s e) := by
  refine ⟨generateGalleryURLs_eq_bind _, ?_, ?_⟩
  · rw [generateGalleryURLs_length, chapterList_length]
    have h1 : (0 : Int) ≤ e - s + 1 := by omega
    push_cast [Int.toNat_of_nonneg h1]
    ring
  · unfold chapterList
    refine List.Pairwise.map _ (fun a b hab => ?_) (List.pairwise_lt_range _)
    omega

/-- C5 witness: instantiation at the range `[1, 2]`. -/
theorem generateGalleryURLs_spec_witness :
    ((generateGalleryURLs (chapterList 1 2)).length : Int) = 2 * (2 - 1 + 1) :=
  (generateGalleryURLs_spec 1 2 (by decide)).2.1

/-- C3 counterexample: a caption of 66 characters is cut to 65
characters, not to the claimed maximum 64 — the slice bound in
`main.go` line 190 is `64+1`. -/
theorem truncCaption_not_claimed_max :
    truncCaption (List.replicate 66 'a') ≠ (List.replicate 66 'a').take 64
      ∧ (truncCaption (List.replicate 66 'a')).length ≠ 64 := by
  constructor <;> decide

/-- C3 amended: for every caption longer than 64 characters the
caption portion of the filename is the caption truncated to exactly
65 characters (the code's slice bound is `64+1`); captions of at most
64 characters are used unchanged. -/
theorem truncCaption_spec (c : GoStr) :
    (64 < c.length → truncCaption c = c.take 65 ∧ (truncCaption c).length = 65)
      ∧ (c.length ≤ 64 → truncCaption c = c) := by
  constructor
  · intro h
    have : truncCaption c = c.take 65 := by
      unfold truncCaption
      rw [if_pos h]
    refine ⟨this, ?_⟩
    rw [this, List.length_take]
    omega
  · intro h
    unfold truncCaption
    rw [if_neg (by omega)]

/-- C3 witness: the amended statement at a 66-character caption and a
3-character caption. -/
theorem truncCaption_spec_witness :
    truncCaption (List.replicate 66 'a') = (List.replicate 66 'a').take 65
      ∧ truncCaption (List.replicate 3 'b') = List.replicate 3 'b' :=
  ⟨((truncCaption_spec (List.replicate 66 'a')).1 (by decide)).1,
   (truncCaption_spec (List.replicate 3 'b')).2 (by decide)⟩

/-- C9: two Pictures with identical Captions but distinct IDs yield
distinct composed filenames `download/<truncated-caption>_<id>.jpeg`,
so neither download overwrites the other. -/
theorem downloadFileName_distinct_ids (p q : Picture)
    (hcap : p.Caption = q.Caption) (hid : p.ID ≠ q.ID) :
    downloadFileName p ≠ downloadFileName q := by
  intro h
  apply hid
  unfold downloadFileName at h
  rw [hcap] at h
  have h1 := List.append_cancel_right h
  exact List.append_cancel_left h1

/-- C9 witness: two concrete pictures sharing a caption with distinct
IDs get distinct filenames. -/
theorem downloadFileName_distinct_ids_witness :
    downloadFileName { URL := ("u1").data, Caption := ("cap").data, ID := ("7").data }
      ≠ downloadFileName { URL := ("u2").data, Caption := ("cap").data, ID := ("8").data } :=
  downloadFileName_distinct_ids _ _ rfl (by decide)

/-- C6: a URL whose page fetch succeeds but whose parse returns a hard
error contributes zero Pictures and exactly one logged error line, and
the URLs before and after it in the stream are processed exactly as
they would be on their own (the pipeline is not aborted). -/
theorem downloadGalleryHTML_hard_error_isolated
    (pre post : List FetchOutcome) (doc : Doc)
    (h : (parseForPic doc).2 ≠ none) :
    downloadGalleryHTML (pre ++ FetchOutcome.fetched doc :: post)
      = ((downloadGalleryHTML pre).1 ++ (downloadGalleryHTML post).1,
         (downloadGalleryHTML pre).2 + 1 + (downloadGalleryHTML post).2) := by
  have hone : processURL (.fetched doc) = ([], 1) := by
    rcases hp : parseForPic doc with ⟨pics, err⟩
    cases err with
    | none => rw [hp] at h; simp at h
    | some e => simp [processURL, hp]
  rw [downloadGalleryHTML_append]
  simp [downloadGalleryHTML, hone]
  omega

/-- C6 witness: a stream consisting of one hard-error page (the script
node is missing and no error page is present) followed by one
not-found page. -/
theorem downloadGalleryHTML_hard_error_isolated_witness :
    downloadGalleryHTML
        ([] ++ FetchOutcome.fetched Doc.missingNode :: [FetchOutcome.fetched Doc.errorPage])
      = ((downloadGalleryHTML []).1 ++ (downloadGalleryHTML [FetchOutcome.fetched Doc.errorPage]).1,
         (downloadGalleryHTML []).2 + 1
           + (downloadGalleryHTML [FetchOutcome.fetched Doc.errorPage]).2) :=
  downloadGalleryHTML_hard_error_isolated [] [FetchOutcome.fetched Doc.errorPage]
    Doc.missingNode (by decide)

/-- C7: a page whose structure explicitly signals missing content (the
`error_page` article, the "not found" outcome) makes `parseForPic`
return zero Pictures with a nil error; the fetch stage emits zero
Pictures for that page and logs nothing for it, while the rest of the
stream is processed unchanged. -/
theorem downloadGalleryHTML_not_found_silent (pre post : List FetchOutcome) :
    parseForPic Doc.errorPage = ([], none)
      ∧ downloadGalleryHTML (pre ++ FetchOutcome.fetched Doc.errorPage :: post)
          = ((downloadGalleryHTML pre).1 ++ (downloadGalleryHTML post).1,
             (downloadGalleryHTML pre).2 + (downloadGalleryHTML post).2) := by
  refine ⟨rfl, ?_⟩
  rw [downloadGalleryHTML_append]
  simp [downloadGalleryHTML, processURL, parseForPic]

/-- C4 (evaluation at the failing inputs): for a fully decoded payload
whose shape lacks stack index 2 (here `stack = []`) or data index 0
(here three stack items whose `data` lists are empty), `parseForPic`
does return — no panic escapes the function — but the error component
of its result is `none`, i.e. a Go `nil` error, not the non-nil
recoverable parse error the claim requires: the deferred `recover`
assigns the wrapped panic to a local `err` that, with unnamed result
parameters, never reaches the caller. -/
theorem parseForPic_shape_failure_nil_error :
    (parseForPic (Doc.decoded { stack := [] })).2 = none
      ∧ (parseForPic (Doc.decoded
            { stack := [{ stack_data := [] }, { stack_data := [] },
                        { stack_data := [] }] })).2 = none := by
  constructor <;> rfl

/-- C10: for every decoded payload whose structure lacks stack index 2
or data index 0, the navigation loop's panic is recovered and
`parseForPic` returns a nil Picture list together with a nil error
(the recovered error is assigned to a local, not to a return value),
an outcome indistinguishable at the caller from the "not found"
result; no panic escapes the function (the embedded function totally
returns this value). -/
theorem parseForPic_recover_total (d : GrillData)
    (h : d.stack.get? 2 = none
          ∨ ∃ s2, d.stack.get? 2 = some s2 ∧ s2.stack_data.get? 0 = none) :
    parseForPic (Doc.decoded d) = ([], none)
      ∧ parseForPic (Doc.decoded d) = parseForPic Doc.errorPage := by
  have : parseForPic (Doc.decoded d) = ([], none) := by
    rcases h with h2 | ⟨s2, h2, h0⟩
    · simp only [parseForPic]
      rw [h2]
    · simp only [parseForPic]
      rw [h2]
      simp only [h0]
  exact ⟨this, this.trans rfl⟩

/-- C10 witness: instantiation at the empty-stack payload. -/
theorem parseForPic_recover_total_witness :
    parseForPic (Doc.decoded { stack := [] }) = ([], none) :=
  (parseForPic_recover_total { stack := [] } (Or.inl rfl)).1

/-- C1 (evaluation at the failing input): `main` invokes `downloadPic`
with no `go` keyword (`main.go` lines 46-48), so the `worker` = 5
calls run one after another on the main goroutine; with a stream of
three pictures, the first call processes all three and the remaining
four calls find the stream exhausted and process nothing — there is no
pool of five concurrently draining workers. -/
theorem runDownloadCalls_sequential :
    runDownloadCalls worker
        [{ URL := ("u1").data, Caption := ("c1").data, ID := ("1").data },
         { URL := ("u2").data, Caption := ("c2").data, ID := ("2").data },
         { URL := ("u3").data, Caption := ("c3").data, ID := ("3").data }]
      = [[{ URL := ("u1").data, Caption := ("c1").data, ID := ("1").data },
          { URL := ("u2").data, Caption := ("c2").data, ID := ("2").data },
          { URL := ("u3").data, Caption := ("c3").data, ID := ("3").data }],
         [], [], [], []] := by
  rfl

/-- C2 counterexample: in the producer system over chapters `[1, 2]`
with no consumer draining the `urls` buffer, the configuration
`genStuckState` — the goroutine at a channel send, the buffer full,
the cancellation token fired — is reachable, is not the closed/returned
state, and has no successor at all: the blocking push does not observe
cancellation, so the producer stays blocked forever. -/
theorem genProducer_send_blind_to_cancellation :
    GenReach (genInit [1, 2]) genStuckState
      ∧ genStuckState.pc ≠ GenPc.closed
      ∧ genSuccessors genStuckState = [] := by
  refine ⟨?_, by decide, by decide⟩
  have st1 : GenStep (genInit [1, 2]) { pc := .send1 1 [2], buf := [], cancelled := false } := by decide
  have st2 : GenStep { pc := .send1 1 [2], buf := [], cancelled := false } { pc := .send2 1 [2], buf := [urlConcept 1], cancelled := false } := by decide
  have st3 : GenStep { pc := .send2 1 [2], buf := [urlConcept 1], cancelled := false } { pc := .loopHead [2], buf := [urlConcept 1, urlConcept2 1], cancelled := false } := by decide
  have st4 : GenStep { pc := .loopHead [2], buf := [urlConcept 1, urlConcept2 1], cancelled := false } { pc := .send1 2 [], buf := [urlConcept 1, urlConcept2 1], cancelled := false } := by decide
  have st5 : GenStep { pc := .send1 2 [], buf := [urlConcept 1, urlConcept2 1], cancelled := false } { pc := .send2 2 [], buf := [urlConcept 1, urlConcept2 1, urlConcept 2], cancelled := false } := by decide
  have st6 : GenStep { pc := .send2 2 [], buf := [urlConcept 1, urlConcept2 1, urlConcept 2], cancelled := false } genStuckState := by decide
  exact Relation.ReflTransGen.tail
    (Relation.ReflTransGen.tail
      (Relation.ReflTransGen.tail
        (Relation.ReflTransGen.tail
          (Relation.ReflTransGen.tail
            (Relation.ReflTransGen.tail Relation.ReflTransGen.refl st1) st2) st3) st4) st5)
    st6

/-- C2 amended: the URL producer observes cancellation only at its
per-chapter non-blocking poll, where it does return promptly: from the
top of a loop iteration with the token fired, its unique own step is
to stop emitting and close the stream, and the closed state is
terminal. The channel sends themselves do not observe cancellation —
a send facing a full buffer that no consumer drains has no step at
all, before or after cancellation (the same holds for the fetch
stage's plain sends into the picture channel). -/
theorem genProducer_poll_prompt (c : Int) (rest : List Int) (buf : List GoStr) :
    (genSuccessors { pc := .loopHead (c :: rest), buf := buf, cancelled := true }
        = [{ pc := .closed, buf := buf, cancelled := true }])
      ∧ (¬ buf.length < urlsChanCap →
          genSuccessors { pc := .send1 c rest, buf := buf, cancelled := true } = []
            ∧ genSuccessors { pc := .send2 c rest, buf := buf, cancelled := true } = [])
      ∧ genSuccessors { pc := .closed, buf := buf, cancelled := true } = [] := by
  refine ⟨?_, fun h => ⟨?_, ?_⟩, ?_⟩
  · simp [genSuccessors]
  · simp [genSuccessors, h]
  · simp [genSuccessors, h]
  · simp [genSuccessors]

/-- C2 amended witness: the amended statement at chapter 1 with a full
buffer. -/
theorem genProducer_poll_prompt_witness :
    genSuccessors
        { pc := .send1 1 [], buf := [urlConcept 1, urlConcept2 1, urlConcept 2],
          cancelled := true } = [] :=
  ((genProducer_poll_prompt 1 [] [urlConcept 1, urlConcept2 1, urlConcept 2]).2.1
    (by decide)).1

/-- The invariant holds initially. -/
theorem httpDoInv_init (fres : Option GoErr) : HttpDoInv fres httpDoInit := by
  refine ⟨?_, ?_, ?_, ?_⟩ <;> simp [httpDoInit, HttpDoInv]

/-- The invariant is preserved by every step of the `httpDo` machine. -/
theorem httpDoInv_step {fres : Option GoErr} {s t : HttpDoState}
    (hinv : HttpDoInv fres s) (hstep : HttpDoStep fres s t) : HttpDoInv fres t := by
  obtain ⟨hchan, hsel, hdrain, hret⟩ := hinv
  cases hstep with
  | bgSend hf =>
      refine ⟨?_, ?_, ?_, ?_⟩
      · intro e he
        exact ⟨(Option.some.inj he).symm, rfl⟩
      · exact hsel
      · exact hdrain
      · intro hr
        exact ⟨rfl, (hret hr).2.1, (hret hr).2.2⟩
  | cancelFires hc =>
      refine ⟨hchan, hsel, ?_, ?_⟩
      · intro hd
        exact ⟨rfl, (hdrain hd).2.1, (hdrain hd).2.2⟩
      · intro hr
        refine ⟨(hret hr).1, ?_, (hret hr).2.2⟩
        intro hv
        exact ⟨((hret hr).2.1 hv).1, rfl⟩
  | selectRecv e hpc hch =>
      obtain ⟨hef, hfd⟩ := hchan e hch
      obtain ⟨hv, hr⟩ := hsel hpc
      refine ⟨?_, ?_, ?_, ?_⟩
      · intro e' he'
        simp at he'
      · intro h
        simp at h
      · intro h
        simp at h
      · intro _
        refine ⟨hfd, ?_, ?_⟩
        · intro hv'
          rw [hv] at hv'
          simp at hv'
        · intro _
          rw [hef]
  | selectDone hpc hc =>
      obtain ⟨hv, hr⟩ := hsel hpc
      refine ⟨hchan, ?_, ?_, ?_⟩
      · intro h
        simp at h
      · intro _
        exact ⟨hc, rfl, hr⟩
      · intro h
        simp at h
  | drainRecv e hpc hch =>
      obtain ⟨hc, hv, hr⟩ := hdrain hpc
      obtain ⟨_, hfd⟩ := hchan e hch
      refine ⟨?_, ?_, ?_, ?_⟩
      · intro e' he'
        simp at he'
      · intro h
        simp at h
      · intro h
        simp at h
      · intro _
        refine ⟨hfd, fun _ => ⟨rfl, hc⟩, ?_⟩
        intro hv'
        rw [hv] at hv'
        simp at hv'

/-- Every state reachable in one `httpDo` call satisfies the
invariant. -/
theorem httpDoInv_reach {fres : Option GoErr} {s : HttpDoState}
    (h : HttpDoReach fres s) : HttpDoInv fres s := by
  unfold HttpDoReach at h
  induction h with
  | refl => exact httpDoInv_init fres
  | tail hab hbc ih => exact httpDoInv_step ih hbc

/-- C8: for every execution of `httpDo`, whenever the call returns,
the background round trip and its handler closure have already
finished (`fDone = true`), so no concurrent network operation outlives
the call; if the `select` committed to the cancellation branch, the
returned value is the distinguished cancellation error `ctx.Err()` —
returned only after draining the result channel, i.e. after the round
trip finished; if it committed to the completion branch, the returned
value is exactly the closure's result. -/
theorem httpDo_no_orphan (fres : Option GoErr) (s : HttpDoState)
    (hreach : HttpDoReach fres s) (hret : s.pc = HPc.returned) :
    s.fDone = true
      ∧ (s.viaCancel = true →
          s.ret = some (some GoErr.contextCanceled) ∧ s.cancelled = true)
      ∧ (s.viaCancel = false → s.ret = some fres) :=
  (httpDoInv_reach hreach).2.2.2 hret

/-- C8 witness: a complete execution in which cancellation fires
before the round trip completes; the call returns the cancellation
error with the background goroutine finished. -/
theorem httpDo_no_orphan_witness :
    ({ fDone := true, chanC := none, cancelled := true, pc := .returned,
       viaCancel := true,
       ret := some (some GoErr.contextCanceled) } : HttpDoState).fDone = true
      ∧ (({ fDone := true, chanC := none, cancelled := true, pc := .returned,
            viaCancel := true,
            ret := some (some GoErr.contextCanceled) } : HttpDoState).viaCancel = true →
          ({ fDone := true, chanC := none, cancelled := true, pc := .returned,
             viaCancel := true,
             ret := some (some GoErr.contextCanceled) } : HttpDoState).ret
              = some (some GoErr.contextCanceled)
            ∧ ({ fDone := true, chanC := none, cancelled := true, pc := .returned,
                 viaCancel := true,
                 ret := some (some GoErr.contextCanceled) } : HttpDoState).cancelled = true)
      ∧ (({ fDone := true, chanC := none, cancelled := true, pc := .returned,
            viaCancel := true,
            ret := some (some GoErr.contextCanceled) } : HttpDoState).viaCancel = false →
          ({ fDone := true, chanC := none, cancelled := true, pc := .returned,
             viaCancel := true,
             ret := some (some GoErr.contextCanceled) } : HttpDoState).ret
              = some (some GoErr.networkError)) := by
  refine httpDo_no_orphan (some GoErr.networkError) _ ?_ rfl
  exact Relation.ReflTransGen.tail
    (Relation.ReflTransGen.tail
      (Relation.ReflTransGen.tail
        (Relation.ReflTransGen.tail Relation.ReflTransGen.refl
          (HttpDoStep.cancelFires httpDoInit rfl))
        (HttpDoStep.bgSend _ rfl))
      (HttpDoStep.selectDone _ rfl rfl))
    (HttpDoStep.drainRecv _ (some GoErr.networkError) rfl rfl)

end MandoGrabber
